import Mathlib

/-!
Verification of the pose-tracking controller
(`moveit_ros/moveit_servo/src/pose_tracking.cpp`).

The development shallowly embeds the file's data model and operations:

* `Vec3`, `Quat`, `TransformK`, `PoseStampedK` — the Eigen / geometry_msgs
  values the controller manipulates. Scalars are a linear ordered field `K`;
  the tracking-loop theorems instantiate `K := ℚ` (so concrete runs can be
  evaluated by `decide`), while the quaternion-angle theorems instantiate
  `K := ℝ` (the angle extraction needs `Real.sqrt` and `arctan`).
* `Pid` — the external `control_toolbox::Pid` controller consumed by the
  file (modelled from the spec, see its doc comment).
* `PTState` — the `PoseTracking` object's mutable fields together with the
  current clock; `moveToPose`, `cycleStep`, `pollLoop`,
  `satisfiesPoseTolerance`, `calculateTwistCommand`, `doPostMotionReset`,
  `targetPoseCallback` mirror the member functions of the same names.

Time is explicit: `PTState.now` is the value `ros::Time::now()` would
return, advanced by the modelled sleep calls and by environment-supplied
drift (real execution time between clock reads). The ghost field
`PTState.total_sleep` accumulates the durations of the explicit sleep calls
the source performs, and nothing else; it lets theorems talk about where
the code suspends.

Asynchronous activity (the target-pose subscriber and the external
stop flag) is discretized to the loop's observation points: each poll /
cycle iteration consumes one `PollInput` / `CycleInput` from an environment
function, carrying an optional freshly-arrived target pose, the result of
`servo_->getCommandFrameTransform` (`none` = the provider failed), an
externally requested stop, and the clock drift for that iteration.

Eigen's `AngleAxisd(Quaterniond)` conversion is transcendental, so the
generic loop takes it as a parameter `angleAxis : Quat K → K × Vec3 K`;
over `ℝ` the honest conversion is `eigenAngleAxis`, and the loop theorems
hold for every instantiation of the parameter.
-/

namespace PoseTrackingSpec

/-- `Eigen::Vector3d`: a 3-vector of scalars. -/
structure Vec3 (K : Type) where
  x : K
  y : K
  z : K
deriving DecidableEq

/-- A quaternion with components `(w, x, y, z)` (Eigen's `Quaterniond`
storage, written in `w`-first constructor order as at line 273 of the
source). -/
structure Quat (K : Type) where
  w : K
  x : K
  y : K
  z : K
deriving DecidableEq

variable {K : Type} [LinearOrderedField K]

/-- Hamilton product, as implemented by `Eigen::Quaterniond::operator*`. -/
def Quat.mul (p q : Quat K) : Quat K :=
  ⟨p.w * q.w - p.x * q.x - p.y * q.y - p.z * q.z,
   p.w * q.x + p.x * q.w + p.y * q.z - p.z * q.y,
   p.w * q.y - p.x * q.z + p.y * q.w + p.z * q.x,
   p.w * q.z + p.x * q.y - p.y * q.x + p.z * q.w⟩

/-- Squared norm of a quaternion (`squaredNorm` in Eigen). -/
def Quat.normSq (q : Quat K) : K :=
  q.w * q.w + q.x * q.x + q.y * q.y + q.z * q.z

/-- Conjugate of a quaternion. -/
def Quat.conj (q : Quat K) : Quat K := ⟨q.w, -q.x, -q.y, -q.z⟩

/-- `Eigen::Quaterniond::inverse`: the conjugate divided by the squared
norm. (Eigen returns the zero quaternion when the squared norm is zero;
since division by zero yields zero in a Lean field, the scaled conjugate
already agrees with that branch.) -/
def Quat.inverse (q : Quat K) : Quat K :=
  ⟨q.w / q.normSq, -q.x / q.normSq, -q.y / q.normSq, -q.z / q.normSq⟩

/-- The identity quaternion `(1, 0, 0, 0)`. -/
def Quat.one : Quat K := ⟨1, 0, 0, 0⟩

/-- Two-argument arctangent, as `std::atan2` used by Eigen: the argument of
the complex number `x + y*i`. -/
noncomputable def atan2 (y x : ℝ) : ℝ := Complex.arg ⟨x, y⟩

/-- Euclidean norm of a quaternion's vector part (`q.vec().norm()` in
Eigen). -/
noncomputable def Quat.vecNorm (q : Quat ℝ) : ℝ :=
  Real.sqrt (q.x * q.x + q.y * q.y + q.z * q.z)

/-- `Eigen::AngleAxisd(Quaterniond)`: the rotation angle and axis extracted
from a quaternion. With `n` the vector-part norm: if `n = 0` the angle is
`0` and the axis the arbitrary unit vector `(1,0,0)`; otherwise the angle
is `2 * atan2 n |w|` and the axis `vec / n`, negated when `w < 0`. -/
noncomputable def eigenAngleAxis (q : Quat ℝ) : ℝ × Vec3 ℝ :=
  let n := q.vecNorm
  if n = 0 then (0, ⟨1, 0, 0⟩)
  else
    (2 * atan2 n |q.w|,
     if q.w < 0 then ⟨q.x / -n, q.y / -n, q.z / -n⟩ else ⟨q.x / n, q.y / n, q.z / n⟩)

/-- Modelled from the spec: the external `control_toolbox::Pid` controller
(the repository snippet only constructs it, calls `computeCommand`, and
calls `reset`; the controller's own source is not part of the snippet).
Per the spec's Axis PID Bank contract, the state is the three gains, the
symmetric windup clamp bounds, the anti-windup flag, the integral
accumulator and the previous-cycle error memory. -/
structure Pid (K : Type) where
  k_p : K
  k_i : K
  k_d : K
  i_min : K
  i_max : K
  antiwindup : Bool
  i_error : K
  p_error_last : K
deriving DecidableEq

/-- Modelled from the spec: a freshly constructed controller with the given
gains and clamp bounds starts with a zero integral accumulator and zero
previous-error memory. The source constructs each controller as
`Pid(k_p, k_i, k_d, -windup_limit, windup_limit, use_anti_windup)`. -/
def Pid.make (p i d lo hi : K) (aw : Bool) : Pid K :=
  ⟨p, i, d, lo, hi, aw, 0, 0⟩

/-- Modelled from the spec: `compute(error, dt)` accumulates `error * dt`
into the integral term, clamps the accumulator to the windup bounds when
anti-windup is enabled, returns
`k_p*error + k_i*integral + k_d*(error - previous_error)/dt`, and stores
`error` as the previous error. Returns the command paired with the updated
controller. -/
def Pid.computeCommand (pid : Pid K) (error dt : K) : K × Pid K :=
  let iacc0 := pid.i_error + error * dt
  let iacc := if pid.antiwindup then max pid.i_min (min pid.i_max iacc0) else iacc0
  let cmd := pid.k_p * error + pid.k_i * iacc + pid.k_d * ((error - pid.p_error_last) / dt)
  (cmd, { pid with i_error := iacc, p_error_last := error })

/-- Modelled from the spec: `reset()` zeroes the integral accumulator and
the previous-error memory and alters nothing else. -/
def Pid.reset (pid : Pid K) : Pid K :=
  { pid with i_error := 0, p_error_last := 0 }

/-- `PoseTracking::initializePID`: pushes a controller built from a config's
gains, with clamp bounds `(-windup_limit, windup_limit)` and anti-windup
enabled. -/
def initializePID (k_p k_i k_d windup_limit : K) : Pid K :=
  Pid.make k_p k_i k_d (-windup_limit) windup_limit true

/-- The four controllers of the bank: `cartesian_position_pids_[0..2]` and
`cartesian_orientation_pids_[0]`. -/
structure PidBank (K : Type) where
  x : Pid K
  y : Pid K
  z : Pid K
  angular : Pid K
deriving DecidableEq

/-- A cached `geometry_msgs::PoseStamped` (the `target_pose_` member):
header stamp and frame plus position and orientation. -/
structure PoseStampedK (K : Type) where
  stamp : K
  frame_id : String
  pos : Vec3 K
  ori : Quat K
deriving DecidableEq

/-- The `Eigen::Isometry3d end_effector_transform_` member: a translation
and a rotation (the rotation matrix is represented by the unit quaternion
Eigen would extract from it at line 275 of the source). -/
structure TransformK (K : Type) where
  translation : Vec3 K
  rotation : Quat K
deriving DecidableEq

/-- The mutable fields of the `PoseTracking` object, together with the
clock. `period` is the configured `publish_period`, which is also what
`loop_rate_.expectedCycleTime()` returns (the `ros::Rate` is built as
`ros::Rate(1 / publish_period)`). `now` is the current `ros::Time::now()`
value; `total_sleep` is ghost instrumentation accumulating the durations of
the explicit sleep calls performed so far. -/
structure PTState (K : Type) where
  target_pose : PoseStampedK K
  end_effector_transform : TransformK K
  end_effector_transform_stamp : K
  angular_error : K
  stop_requested : Bool
  pids : PidBank K
  planning_frame : String
  period : K
  now : K
  total_sleep : K
deriving DecidableEq

/-- `DEFAULT_POSE_TIMEOUT` (0.1 s), the staleness timeout used for both
poses and for the startup polling window. -/
def DEFAULT_POSE_TIMEOUT : K := 1 / 10

/-- `PoseTracking::haveRecentTargetPose`: the cached target pose's age is
strictly below `timespan`. -/
def haveRecentTargetPose (s : PTState K) (timespan : K) : Bool :=
  decide (s.now - s.target_pose.stamp < timespan)

/-- `PoseTracking::haveRecentEndEffectorPose`: the end-effector transform
stamp's age is strictly below `timespan`. -/
def haveRecentEndEffectorPose (s : PTState K) (timespan : K) : Bool :=
  decide (s.now - s.end_effector_transform_stamp < timespan)

/-- `PoseTracking::satisfiesPoseTolerance`: per-axis positional errors
(target minus current) each strictly within tolerance, and the cached
angular error strictly within the angular tolerance. -/
def satisfiesPoseTolerance (s : PTState K) (positional_tolerance : Vec3 K)
    (angular_tolerance : K) : Bool :=
  let x_error := s.target_pose.pos.x - s.end_effector_transform.translation.x
  let y_error := s.target_pose.pos.y - s.end_effector_transform.translation.y
  let z_error := s.target_pose.pos.z - s.end_effector_transform.translation.z
  decide (|x_error| < positional_tolerance.x) && decide (|y_error| < positional_tolerance.y) &&
    (decide (|z_error| < positional_tolerance.z) && decide (|s.angular_error| < angular_tolerance))

/-- `PoseTracking::doPostMotionReset`: clears the stop flag, zeroes the
cached angular error, and resets all four PID controllers. -/
def doPostMotionReset (s : PTState K) : PTState K :=
  { s with stop_requested := false, angular_error := 0,
           pids := ⟨s.pids.x.reset, s.pids.y.reset, s.pids.z.reset, s.pids.angular.reset⟩ }

/-- The outgoing `geometry_msgs::TwistStamped` message: header frame and
stamp plus the linear and angular velocity 3-vectors. -/
structure TwistStamped (K : Type) where
  frame_id : String
  linear : Vec3 K
  angular : Vec3 K
  stamp : K
deriving DecidableEq

/-- `PoseTracking::calculateTwistCommand`, parameterized by the Eigen
angle-axis extraction `angleAxis`. Computes the three linear components by
feeding each positional error to its PID with the nominal cycle period as
`dt`, forms the relative quaternion `q_desired * q_current.inverse`, caches
its angle as `angular_error_`, feeds that angle to the orientation PID, and
scales the rotation axis by the resulting magnitude. Returns the stamped
twist message paired with the updated state. -/
def calculateTwistCommand (angleAxis : Quat K → K × Vec3 K) (s : PTState K) :
    TwistStamped K × PTState K :=
  let rx := s.pids.x.computeCommand
    (s.target_pose.pos.x - s.end_effector_transform.translation.x) s.period
  let ry := s.pids.y.computeCommand
    (s.target_pose.pos.y - s.end_effector_transform.translation.y) s.period
  let rz := s.pids.z.computeCommand
    (s.target_pose.pos.z - s.end_effector_transform.translation.z) s.period
  let q_error := s.target_pose.ori.mul s.end_effector_transform.rotation.inverse
  let aa := angleAxis q_error
  let ra := s.pids.angular.computeCommand aa.1 s.period
  (⟨s.target_pose.frame_id,
    ⟨rx.1, ry.1, rz.1⟩,
    ⟨ra.1 * aa.2.x, ra.1 * aa.2.y, ra.1 * aa.2.z⟩,
    s.now⟩,
   { s with pids := ⟨rx.2, ry.2, rz.2, ra.2⟩, angular_error := aa.1 })

/-- The payload of a target-pose message after the subscriber callback has
finished with it: the frame, position and orientation that get cached (the
cache stamp is always the arrival time, so the message's own stamp is not
part of the payload). -/
structure TargetMsg (K : Type) where
  frame_id : String
  pos : Vec3 K
  ori : Quat K
deriving DecidableEq

/-- Caching a freshly arrived target pose: the cached stamp is set to the
current time (`target_pose_.header.stamp = ros::Time::now()` in the
callback), never to the message's own stamp. -/
def applyTargetUpdate (u : Option (TargetMsg K)) (s : PTState K) : PTState K :=
  match u with
  | none => s
  | some m =>
    { s with target_pose := { stamp := s.now, frame_id := m.frame_id, pos := m.pos, ori := m.ori } }

/-- The `if (servo_->getCommandFrameTransform(end_effector_transform_))`
pattern: on success the transform is stored and its stamp set to now; on
failure (`none`) nothing changes. -/
def refreshEE (t : Option (TransformK K)) (s : PTState K) : PTState K :=
  match t with
  | some tr => { s with end_effector_transform := tr, end_effector_transform_stamp := s.now }
  | none => s

/-- Environment input consumed by one iteration of the startup poll loop:
an optional target message delivered by the subscriber during the
iteration, the transform provider's answer, and the wall-clock drift (time
that passes during the iteration beyond the explicit 1 ms sleep). -/
structure PollInput (K : Type) where
  target_update : Option (TargetMsg K)
  transform : Option (TransformK K)
  drift : K
deriving DecidableEq

/-- Environment input consumed by one iteration of the tracking loop: an
optional target message, the transform provider's answer, whether an
external actor requests a stop before this cycle's checks, and the
wall-clock drift over the cycle (the loop body contains no sleep call, so
all time that passes is execution drift). -/
structure CycleInput (K : Type) where
  target_update : Option (TargetMsg K)
  transform : Option (TransformK K)
  request_stop : Bool
  drift : K
deriving DecidableEq

/-- Asynchronous effects observed at the top of a tracking cycle: a target
message cached by the subscriber callback and the externally settable stop
flag (once set it stays set until `doPostMotionReset`). -/
def applyAsyncEvents (c : CycleInput K) (s : PTState K) : PTState K :=
  let s := applyTargetUpdate c.target_update s
  if c.request_stop then { s with stop_requested := true } else s

/-- Outcome of one iteration of the tracking loop body. -/
inductive CycleResult (K : Type) where
  | tolSatisfied (s : PTState K)
  | noRecentEE (s : PTState K)
  | stopRequested (s : PTState K)
  | emitted (cmd : TwistStamped K) (s : PTState K)
deriving DecidableEq

/-- The state carried by a cycle outcome. -/
def CycleResult.stateAfter : CycleResult K → PTState K
  | .tolSatisfied s => s
  | .noRecentEE s => s
  | .stopRequested s => s
  | .emitted _ s => s

/-- Whether the cycle published a command. -/
def CycleResult.emitsCommand : CycleResult K → Bool
  | .emitted _ _ => true
  | _ => false

/-- One iteration of `moveToPose`'s `while (ros::ok())` body: check the
tolerance first (`break` on success, before any command for that cycle),
then attempt to refresh the end-effector pose, then the staleness check
(reset and abort), then the stop check (reset and abort), and otherwise
compute and publish a twist command. The body contains no sleep call, so
only the environment drift advances the clock on the emitting path. -/
def cycleStep (angleAxis : Quat K → K × Vec3 K) (c : CycleInput K)
    (positional_tolerance : Vec3 K) (angular_tolerance : K) (s : PTState K) : CycleResult K :=
  let s := applyAsyncEvents c s
  if satisfiesPoseTolerance s positional_tolerance angular_tolerance then
    .tolSatisfied s
  else
    let s := refreshEE c.transform s
    if !haveRecentEndEffectorPose s DEFAULT_POSE_TIMEOUT then
      .noRecentEE (doPostMotionReset s)
    else if s.stop_requested then
      .stopRequested (doPostMotionReset s)
    else
      let r := calculateTwistCommand angleAxis s
      .emitted r.1 { r.2 with now := r.2.now + c.drift }

/-- The status codes `moveToPose` can return. -/
inductive PoseTrackingStatusCode where
  | SUCCESS
  | NO_RECENT_TARGET_POSE
  | NO_RECENT_END_EFFECTOR_POSE
  | STOP_REQUESTED
deriving DecidableEq

/-- Result of a (fuel-bounded) `moveToPose` run: the status code (`none`
when the fuel ran out with the loop still running), the final state, and
the published commands in order. -/
structure RunResult (K : Type) where
  status : Option PoseTrackingStatusCode
  state : PTState K
  commands : List (TwistStamped K)
deriving DecidableEq

/-- The `while (ros::ok())` tracking loop, driven by per-cycle environment
inputs and bounded by fuel. On a satisfied tolerance the loop breaks and
the code after it performs the post-motion reset and returns `SUCCESS`; the
two abort outcomes return the state the cycle produced (already reset
inside the body); an emitted command is appended and the loop continues. -/
def trackLoop (angleAxis : Quat K → K × Vec3 K) (env : ℕ → CycleInput K)
    (positional_tolerance : Vec3 K) (angular_tolerance : K) :
    ℕ → ℕ → PTState K → List (TwistStamped K) → RunResult K
  | _, 0, s, acc => ⟨none, s, acc⟩
  | i, fuel + 1, s, acc =>
    match cycleStep angleAxis (env i) positional_tolerance angular_tolerance s with
    | .tolSatisfied s1 => ⟨some .SUCCESS, doPostMotionReset s1, acc⟩
    | .noRecentEE s1 => ⟨some .NO_RECENT_END_EFFECTOR_POSE, s1, acc⟩
    | .stopRequested s1 => ⟨some .STOP_REQUESTED, s1, acc⟩
    | .emitted cmd s1 =>
      trackLoop angleAxis env positional_tolerance angular_tolerance (i + 1) fuel s1 (acc ++ [cmd])

/-- The condition of the startup poll loop: either pose is stale, and the
startup window (one `DEFAULT_POSE_TIMEOUT`) since `start_time` has not yet
elapsed. -/
def pollCond (start_time : K) (s : PTState K) : Bool :=
  (!haveRecentTargetPose s DEFAULT_POSE_TIMEOUT ||
    !haveRecentEndEffectorPose s DEFAULT_POSE_TIMEOUT) &&
    decide (s.now - start_time < DEFAULT_POSE_TIMEOUT)

/-- The startup poll loop of `moveToPose`: while `pollCond` holds, observe
any target message the subscriber delivered, attempt a transform refresh,
and sleep 1 ms (advancing the clock by the sleep plus the iteration's
drift, and recording the sleep in the ghost accumulator). Returns `none`
when the fuel is exhausted with the loop still running. -/
def pollLoop (env : ℕ → PollInput K) (start_time : K) :
    ℕ → ℕ → PTState K → Option (PTState K)
  | _, 0, s => if pollCond start_time s then none else some s
  | i, fuel + 1, s =>
    if pollCond start_time s then
      let s := applyTargetUpdate (env i).target_update s
      let s := refreshEE (env i).transform s
      let s := { s with now := s.now + 1 / 1000 + (env i).drift,
                        total_sleep := s.total_sleep + 1 / 1000 }
      pollLoop env start_time (i + 1) fuel s
    else some s

/-- Line 84 of the source: roll the cached target pose's stamp back to
`now - 2 * DEFAULT_POSE_TIMEOUT` so a stale cached target from a previous
invocation cannot count as recent. -/
def rollbackTarget (s : PTState K) : PTState K :=
  { s with target_pose := { s.target_pose with stamp := s.now - 2 * DEFAULT_POSE_TIMEOUT } }

/-- `PoseTracking::moveToPose`: roll the cached target stamp back, run the
startup poll loop, abort with `NO_RECENT_TARGET_POSE` (without resetting)
if the target pose is still not recent, and otherwise run the tracking
loop. -/
def moveToPose (angleAxis : Quat K → K × Vec3 K) (envPoll : ℕ → PollInput K)
    (envCycle : ℕ → CycleInput K) (pollFuel cycleFuel : ℕ) (s : PTState K)
    (positional_tolerance : Vec3 K) (angular_tolerance : K) : RunResult K :=
  let s := rollbackTarget s
  let start_time := s.now
  match pollLoop envPoll start_time 0 pollFuel s with
  | none => ⟨none, s, []⟩
  | some s1 =>
    if !haveRecentTargetPose s1 DEFAULT_POSE_TIMEOUT then
      ⟨some .NO_RECENT_TARGET_POSE, s1, []⟩
    else
      trackLoop angleAxis envCycle positional_tolerance angular_tolerance 0 cycleFuel s1 []

/-- An incoming `geometry_msgs::PoseStamped` as delivered to the
subscriber callback, before any re-expression. -/
structure PoseMsg (K : Type) where
  stamp : K
  frame_id : String
  pos : Vec3 K
  ori : Quat K
deriving DecidableEq

/-- Rotation of a vector by a quaternion via the conjugation sandwich
(the action of the transform's rotation part on a point). -/
def rotateVec (q : Quat K) (v : Vec3 K) : Vec3 K :=
  let p : Quat K := ⟨0, v.x, v.y, v.z⟩
  let r := (q.mul p).mul q.conj
  ⟨r.x, r.y, r.z⟩

/-- `tf2::doTransform` on a stamped pose: position rotated and translated,
orientation composed, frame set to the transform's target frame. -/
def doTransformPose (t : TransformK K) (target_frame : String) (m : PoseMsg K) : PoseMsg K :=
  let p := rotateVec t.rotation m.pos
  { stamp := m.stamp, frame_id := target_frame,
    pos := ⟨p.x + t.translation.x, p.y + t.translation.y, p.z + t.translation.z⟩,
    ori := t.rotation.mul m.ori }

/-- `PoseTracking::targetPoseCallback`. If the message frame differs from
the planning frame, the transform lookup runs first; `lookup = none` models
`tf2_ros::Buffer::lookupTransform` throwing a `TransformException`, which
nothing in the callback catches — the first component is `true` when the
exception propagates out of the callback, and the state is returned as it
was at the throw point (no field had been mutated yet). Otherwise the
message is cached with its stamp replaced by the arrival time. -/
def targetPoseCallback (lookup : Option (TransformK K)) (m : PoseMsg K) (s : PTState K) :
    Bool × PTState K :=
  if m.frame_id ≠ s.planning_frame then
    match lookup with
    | none => (true, s)
    | some t =>
      let m1 := doTransformPose t s.planning_frame m
      (false, { s with target_pose :=
        { stamp := s.now, frame_id := m1.frame_id, pos := m1.pos, ori := m1.ori } })
  else
    (false, { s with target_pose :=
      { stamp := s.now, frame_id := m.frame_id, pos := m.pos, ori := m.ori } })

/-- A concrete instantiation of the Eigen angle-axis parameter, used for
evaluating the loop model on concrete inputs (the loop theorems hold for
every instantiation). -/
def aaQ : Quat ℚ → ℚ × Vec3 ℚ := fun _ => (0, ⟨1, 0, 0⟩)

/-- The identity quaternion over `ℚ` (a concrete-run fixture). -/
def qidQ : Quat ℚ := ⟨1, 0, 0, 0⟩

/-- The zero vector over `ℚ` (a concrete-run fixture). -/
def v0Q : Vec3 ℚ := ⟨0, 0, 0⟩

/-- A concrete controller: proportional gain 1, windup limit 1. -/
def pid0 : Pid ℚ := initializePID 1 0 0 1

/-- A concrete PID bank (a concrete-run fixture). -/
def bank0 : PidBank ℚ := ⟨pid0, pid0, pid0, pid0⟩

/-- A concrete controller state at time 0 with coincident target and
end-effector poses, both freshly stamped. -/
def s0 : PTState ℚ :=
  { target_pose := ⟨0, "base", v0Q, qidQ⟩,
    end_effector_transform := ⟨v0Q, qidQ⟩,
    end_effector_transform_stamp := 0,
    angular_error := 0,
    stop_requested := false,
    pids := bank0,
    planning_frame := "base",
    period := 1 / 100,
    now := 0,
    total_sleep := 0 }

/-- `s0` with leftover controller state from an earlier motion: a non-zero
cached angular error and a non-zero integral accumulator on the x axis. -/
def s0dirty : PTState ℚ :=
  { s0 with angular_error := 5,
            pids := { bank0 with x := { pid0 with i_error := 7 } } }

/-- A poll environment that never delivers a target pose and drifts 1 s per
iteration. -/
def envPnone : ℕ → PollInput ℚ := fun _ => ⟨none, none, 1⟩

/-- A poll environment that delivers a fresh target pose and a transform on
every iteration, with no drift. -/
def envPfresh : ℕ → PollInput ℚ := fun _ => ⟨some ⟨"base", v0Q, qidQ⟩, some ⟨v0Q, qidQ⟩, 0⟩

/-- A cycle environment with no asynchronous activity. -/
def envCnil : ℕ → CycleInput ℚ := fun _ => ⟨none, none, false, 0⟩

/-- A cycle environment that refreshes the transform every cycle (pose
`(1,0,0)` away from the target in `s0`), with no other activity. -/
def envCrefresh : ℕ → CycleInput ℚ :=
  fun _ => ⟨none, some ⟨⟨1, 0, 0⟩, qidQ⟩, false, 0⟩

/-- A controller whose integral accumulator and previous-error memory are
both zero (the observable effect of `control_toolbox::Pid::reset`). -/
def pidCleared (p : Pid K) : Prop := p.i_error = 0 ∧ p.p_error_last = 0

/-- The observable effect of `doPostMotionReset` on the controller state:
all four PID controllers cleared and the cached angular error zero. -/
def postMotionResetDone (s : PTState K) : Prop :=
  pidCleared s.pids.x ∧ pidCleared s.pids.y ∧ pidCleared s.pids.z ∧
    pidCleared s.pids.angular ∧ s.angular_error = 0

/-- A unit quaternion times its inverse is the identity quaternion. -/
theorem Quat.mul_inverse_self (q : Quat K) (h : q.normSq = 1) :
    q.mul q.inverse = Quat.one := by
  have hn : q.w * q.w + q.x * q.x + q.y * q.y + q.z * q.z = 1 := h
  simp only [Quat.mul, Quat.inverse, Quat.one, Quat.normSq, hn, div_one, Quat.mk.injEq]
  exact ⟨by linear_combination hn, by ring, by ring, by ring⟩

/-- The Eigen angle extraction always lands in `[0, π]`: the vector-part
norm and `|w|` are both non-negative, so the `atan2` value is in
`[0, π/2]`. -/
theorem eigenAngleAxis_angle_mem (q : Quat ℝ) :
    0 ≤ (eigenAngleAxis q).1 ∧ (eigenAngleAxis q).1 ≤ Real.pi := by
  unfold eigenAngleAxis
  set n := q.vecNorm with hn
  have hn0 : 0 ≤ n := Real.sqrt_nonneg _
  by_cases h : n = 0
  · simp [h, Real.pi_nonneg]
  · have harg0 : 0 ≤ Complex.arg ⟨|q.w|, n⟩ :=
      Complex.arg_nonneg_iff.mpr (by simpa using hn0)
    have harg2 : |Complex.arg ⟨|q.w|, n⟩| ≤ Real.pi / 2 :=
      Complex.abs_arg_le_pi_div_two_iff.mpr (by simp [abs_nonneg q.w])
    have hargle : Complex.arg ⟨|q.w|, n⟩ ≤ Real.pi / 2 := (abs_le.mp harg2).2
    simp only [h, if_false, atan2]
    constructor
    · positivity
    · linarith

/-- The Eigen angle of the identity quaternion is zero. -/
theorem eigenAngleAxis_one : (eigenAngleAxis (Quat.one : Quat ℝ)).1 = 0 := by
  unfold eigenAngleAxis Quat.vecNorm Quat.one
  norm_num

theorem postMotionResetDone_reset (s : PTState K) :
    postMotionResetDone (doPostMotionReset s) := by
  simp [postMotionResetDone, doPostMotionReset, pidCleared, Pid.reset]

theorem applyTargetUpdate_now (u : Option (TargetMsg K)) (s : PTState K) :
    (applyTargetUpdate u s).now = s.now := by
  cases u <;> rfl

theorem applyTargetUpdate_angular_error (u : Option (TargetMsg K)) (s : PTState K) :
    (applyTargetUpdate u s).angular_error = s.angular_error := by
  cases u <;> rfl

theorem applyTargetUpdate_total_sleep (u : Option (TargetMsg K)) (s : PTState K) :
    (applyTargetUpdate u s).total_sleep = s.total_sleep := by
  cases u <;> rfl

theorem refreshEE_now (t : Option (TransformK K)) (s : PTState K) :
    (refreshEE t s).now = s.now := by
  cases t <;> rfl

theorem refreshEE_angular_error (t : Option (TransformK K)) (s : PTState K) :
    (refreshEE t s).angular_error = s.angular_error := by
  cases t <;> rfl

theorem refreshEE_target_pose (t : Option (TransformK K)) (s : PTState K) :
    (refreshEE t s).target_pose = s.target_pose := by
  cases t <;> rfl

theorem refreshEE_total_sleep (t : Option (TransformK K)) (s : PTState K) :
    (refreshEE t s).total_sleep = s.total_sleep := by
  cases t <;> rfl

theorem applyAsyncEvents_now (c : CycleInput K) (s : PTState K) :
    (applyAsyncEvents c s).now = s.now := by
  unfold applyAsyncEvents
  split <;> simp [applyTargetUpdate_now]

theorem applyAsyncEvents_angular_error (c : CycleInput K) (s : PTState K) :
    (applyAsyncEvents c s).angular_error = s.angular_error := by
  unfold applyAsyncEvents
  split <;> simp [applyTargetUpdate_angular_error]

theorem applyAsyncEvents_total_sleep (c : CycleInput K) (s : PTState K) :
    (applyAsyncEvents c s).total_sleep = s.total_sleep := by
  unfold applyAsyncEvents
  split <;> simp [applyTargetUpdate_total_sleep]

theorem calculateTwistCommand_total_sleep (aa : Quat K → K × Vec3 K) (s : PTState K) :
    ((calculateTwistCommand aa s).2).total_sleep = s.total_sleep := rfl

theorem doPostMotionReset_total_sleep (s : PTState K) :
    (doPostMotionReset s).total_sleep = s.total_sleep := rfl

theorem cycleStep_of_tol (aa : Quat K → K × Vec3 K) (c : CycleInput K)
    (tolp : Vec3 K) (tola : K) (s : PTState K)
    (h : satisfiesPoseTolerance (applyAsyncEvents c s) tolp tola = true) :
    cycleStep aa c tolp tola s = .tolSatisfied (applyAsyncEvents c s) := by
  simp [cycleStep, h]

theorem cycleStep_of_stale (aa : Quat K → K × Vec3 K) (c : CycleInput K)
    (tolp : Vec3 K) (tola : K) (s : PTState K)
    (h1 : satisfiesPoseTolerance (applyAsyncEvents c s) tolp tola = false)
    (h2 : haveRecentEndEffectorPose (refreshEE c.transform (applyAsyncEvents c s))
      DEFAULT_POSE_TIMEOUT = false) :
    cycleStep aa c tolp tola s =
      .noRecentEE (doPostMotionReset (refreshEE c.transform (applyAsyncEvents c s))) := by
  simp [cycleStep, h1, h2]

theorem cycleStep_of_stop (aa : Quat K → K × Vec3 K) (c : CycleInput K)
    (tolp : Vec3 K) (tola : K) (s : PTState K)
    (h1 : satisfiesPoseTolerance (applyAsyncEvents c s) tolp tola = false)
    (h2 : haveRecentEndEffectorPose (refreshEE c.transform (applyAsyncEvents c s))
      DEFAULT_POSE_TIMEOUT = true)
    (h3 : (refreshEE c.transform (applyAsyncEvents c s)).stop_requested = true) :
    cycleStep aa c tolp tola s =
      .stopRequested (doPostMotionReset (refreshEE c.transform (applyAsyncEvents c s))) := by
  simp [cycleStep, h1, h2, h3]

theorem cycleStep_of_emit (aa : Quat K → K × Vec3 K) (c : CycleInput K)
    (tolp : Vec3 K) (tola : K) (s : PTState K)
    (h1 : satisfiesPoseTolerance (applyAsyncEvents c s) tolp tola = false)
    (h2 : haveRecentEndEffectorPose (refreshEE c.transform (applyAsyncEvents c s))
      DEFAULT_POSE_TIMEOUT = true)
    (h3 : (refreshEE c.transform (applyAsyncEvents c s)).stop_requested = false) :
    cycleStep aa c tolp tola s =
      .emitted (calculateTwistCommand aa (refreshEE c.transform (applyAsyncEvents c s))).1
        { (calculateTwistCommand aa (refreshEE c.transform (applyAsyncEvents c s))).2 with
          now := (calculateTwistCommand aa (refreshEE c.transform (applyAsyncEvents c s))).2.now
            + c.drift } := by
  simp [cycleStep, h1, h2, h3]

theorem cycleStep_cases (aa : Quat K → K × Vec3 K) (c : CycleInput K)
    (tolp : Vec3 K) (tola : K) (s : PTState K) :
    cycleStep aa c tolp tola s = .tolSatisfied (applyAsyncEvents c s) ∨
    cycleStep aa c tolp tola s =
      .noRecentEE (doPostMotionReset (refreshEE c.transform (applyAsyncEvents c s))) ∨
    cycleStep aa c tolp tola s =
      .stopRequested (doPostMotionReset (refreshEE c.transform (applyAsyncEvents c s))) ∨
    cycleStep aa c tolp tola s =
      .emitted (calculateTwistCommand aa (refreshEE c.transform (applyAsyncEvents c s))).1
        { (calculateTwistCommand aa (refreshEE c.transform (applyAsyncEvents c s))).2 with
          now := (calculateTwistCommand aa (refreshEE c.transform (applyAsyncEvents c s))).2.now
            + c.drift } := by
  cases h1 : satisfiesPoseTolerance (applyAsyncEvents c s) tolp tola
  · cases h2 : haveRecentEndEffectorPose (refreshEE c.transform (applyAsyncEvents c s))
      DEFAULT_POSE_TIMEOUT
    · exact Or.inr (Or.inl (cycleStep_of_stale aa c tolp tola s h1 h2))
    · cases h3 : (refreshEE c.transform (applyAsyncEvents c s)).stop_requested
      · exact Or.inr (Or.inr (Or.inr (cycleStep_of_emit aa c tolp tola s h1 h2 h3)))
      · exact Or.inr (Or.inr (Or.inl (cycleStep_of_stop aa c tolp tola s h1 h2 h3)))
  · exact Or.inl (cycleStep_of_tol aa c tolp tola s h1)

theorem trackLoop_status_reset (aa : Quat K → K × Vec3 K) (env : ℕ → CycleInput K)
    (tolp : Vec3 K) (tola : K) :
    ∀ fuel i (s : PTState K) acc st,
      (trackLoop aa env tolp tola i fuel s acc).status = some st →
      postMotionResetDone (trackLoop aa env tolp tola i fuel s acc).state := by
  intro fuel
  induction fuel with
  | zero =>
    intro i s acc st h
    simp [trackLoop] at h
  | succ n ih =>
    intro i s acc st h
    rcases cycleStep_cases aa (env i) tolp tola s with hc | hc | hc | hc <;>
      rw [trackLoop, hc] at h ⊢
    · exact postMotionResetDone_reset _
    · exact postMotionResetDone_reset _
    · exact postMotionResetDone_reset _
    · exact ih _ _ _ _ h

theorem pollLoop_body_now (env : ℕ → PollInput K) (i : ℕ) (s : PTState K) :
    ({ refreshEE (env i).transform (applyTargetUpdate (env i).target_update s) with
        now := (refreshEE (env i).transform (applyTargetUpdate (env i).target_update s)).now
          + 1 / 1000 + (env i).drift,
        total_sleep := (refreshEE (env i).transform
          (applyTargetUpdate (env i).target_update s)).total_sleep + 1 / 1000 } : PTState K).now
      = s.now + 1 / 1000 + (env i).drift := by
  simp [refreshEE_now, applyTargetUpdate_now]

theorem pollLoop_some_of_fuel (env : ℕ → PollInput ℚ) (start_time : ℚ)
    (hd : ∀ j, 0 ≤ (env j).drift) :
    ∀ (fuel i : ℕ) (s : PTState ℚ),
      DEFAULT_POSE_TIMEOUT - (s.now - start_time) ≤ (fuel : ℚ) / 1000 →
      (pollLoop env start_time i fuel s).isSome := by
  intro fuel
  induction fuel with
  | zero =>
    intro i s hb
    have hnotlt : ¬ (s.now - start_time < DEFAULT_POSE_TIMEOUT) := by
      simp only [Nat.cast_zero, zero_div] at hb
      linarith
    have hcond : pollCond start_time s = false := by
      simp [pollCond, hnotlt]
    simp [pollLoop, hcond]
  | succ n ih =>
    intro i s hb
    by_cases hcond : pollCond start_time s = true
    · rw [pollLoop, if_pos hcond]
      apply ih
      rw [refreshEE_now, applyTargetUpdate_now]
      have := hd i
      push_cast at hb ⊢
      linarith
    · rw [pollLoop, if_neg hcond]
      rfl

theorem pollLoop_no_target_update (env : ℕ → PollInput ℚ) (start_time : ℚ)
    (hu : ∀ j, (env j).target_update = none)
    (hd : ∀ j, 0 ≤ (env j).drift) :
    ∀ fuel i (s s1 : PTState ℚ),
      pollLoop env start_time i fuel s = some s1 →
      s1.target_pose = s.target_pose ∧ s.now ≤ s1.now := by
  intro fuel
  induction fuel with
  | zero =>
    intro i s s1 h
    rw [pollLoop] at h
    by_cases hcond : pollCond start_time s = true
    · rw [if_pos hcond] at h; cases h
    · rw [if_neg hcond] at h
      cases h
      exact ⟨rfl, le_refl _⟩
  | succ n ih =>
    intro i s s1 h
    rw [pollLoop] at h
    by_cases hcond : pollCond start_time s = true
    · rw [if_pos hcond] at h
      rw [hu i] at h
      obtain ⟨h1, h2⟩ := ih _ _ _ h
      constructor
      · rw [h1]
        simp [applyTargetUpdate, refreshEE_target_pose]
      · refine le_trans ?_ h2
        rw [refreshEE_now]
        simp only [applyTargetUpdate]
        have := hd i
        linarith
    · rw [if_neg hcond] at h
      cases h
      exact ⟨rfl, le_refl _⟩

theorem pollLoop_angular_error (env : ℕ → PollInput ℚ) (start_time : ℚ) :
    ∀ fuel i (s s1 : PTState ℚ),
      pollLoop env start_time i fuel s = some s1 →
      s1.angular_error = s.angular_error := by
  intro fuel
  induction fuel with
  | zero =>
    intro i s s1 h
    rw [pollLoop] at h
    by_cases hcond : pollCond start_time s = true
    · rw [if_pos hcond] at h; cases h
    · rw [if_neg hcond] at h; cases h; rfl
  | succ n ih =>
    intro i s s1 h
    rw [pollLoop] at h
    by_cases hcond : pollCond start_time s = true
    · rw [if_pos hcond] at h
      rw [ih _ _ _ h]
      simp [refreshEE_angular_error, applyTargetUpdate_angular_error]
    · rw [if_neg hcond] at h; cases h; rfl

theorem rollbackTarget_now (s : PTState K) : (rollbackTarget s).now = s.now := rfl

theorem rollbackTarget_stamp (s : PTState K) :
    (rollbackTarget s).target_pose.stamp = s.now - 2 * DEFAULT_POSE_TIMEOUT := rfl

theorem rollbackTarget_angular_error (s : PTState K) :
    (rollbackTarget s).angular_error = s.angular_error := rfl

theorem moveToPose_inv (aa : Quat K → K × Vec3 K) (envP : ℕ → PollInput K)
    (envC : ℕ → CycleInput K) (pollFuel cycleFuel : ℕ) (s : PTState K)
    (tolp : Vec3 K) (tola : K) :
    (pollLoop envP (rollbackTarget s).now 0 pollFuel (rollbackTarget s) = none ∧
      moveToPose aa envP envC pollFuel cycleFuel s tolp tola = ⟨none, rollbackTarget s, []⟩) ∨
    (∃ s1, pollLoop envP (rollbackTarget s).now 0 pollFuel (rollbackTarget s) = some s1 ∧
      ((haveRecentTargetPose s1 DEFAULT_POSE_TIMEOUT = false ∧
        moveToPose aa envP envC pollFuel cycleFuel s tolp tola =
          ⟨some .NO_RECENT_TARGET_POSE, s1, []⟩) ∨
       (haveRecentTargetPose s1 DEFAULT_POSE_TIMEOUT = true ∧
        moveToPose aa envP envC pollFuel cycleFuel s tolp tola =
          trackLoop aa envC tolp tola 0 cycleFuel s1 []))) := by
  cases heq : pollLoop envP (rollbackTarget s).now 0 pollFuel (rollbackTarget s) with
  | none =>
    left
    exact ⟨rfl, by simp [moveToPose, heq]⟩
  | some s1 =>
    right
    refine ⟨s1, rfl, ?_⟩
    cases hrt : haveRecentTargetPose s1 DEFAULT_POSE_TIMEOUT with
    | false => exact Or.inl ⟨rfl, by simp [moveToPose, heq, hrt]⟩
    | true => exact Or.inr ⟨rfl, by simp [moveToPose, heq, hrt]⟩

/-- C4: the tolerance check succeeds exactly when all four strict
conditions hold simultaneously: `|error_x| < tol_x`, `|error_y| < tol_y`,
`|error_z| < tol_z` (positional errors computed as target position minus
current position, per axis), and `|angular_error| < angular_tolerance`. -/
theorem satisfiesPoseTolerance_iff (s : PTState ℚ) (tolp : Vec3 ℚ) (tola : ℚ) :
    satisfiesPoseTolerance s tolp tola = true ↔
      (|s.target_pose.pos.x - s.end_effector_transform.translation.x| < tolp.x ∧
       |s.target_pose.pos.y - s.end_effector_transform.translation.y| < tolp.y ∧
       |s.target_pose.pos.z - s.end_effector_transform.translation.z| < tolp.z ∧
       |s.angular_error| < tola) := by
  simp [satisfiesPoseTolerance, and_assoc]

/-- C8: for every PID controller, reset is idempotent; reset followed by
`compute(e, dt)` produces the same output as a freshly constructed
controller's first `compute(e, dt)` with the same gains, windup clamp
bounds and anti-windup flag, for every error `e` and period `dt`; and reset
changes neither the gains nor the windup limits. -/
theorem pid_reset_spec (pid : Pid K) (e dt : K) :
    pid.reset.reset = pid.reset ∧
    pid.reset.computeCommand e dt =
      (Pid.make pid.k_p pid.k_i pid.k_d pid.i_min pid.i_max pid.antiwindup).computeCommand e dt ∧
    pid.reset.k_p = pid.k_p ∧ pid.reset.k_i = pid.k_i ∧ pid.reset.k_d = pid.k_d ∧
    pid.reset.i_min = pid.i_min ∧ pid.reset.i_max = pid.i_max ∧
    pid.reset.antiwindup = pid.antiwindup :=
  ⟨rfl, rfl, rfl, rfl, rfl, rfl, rfl, rfl⟩

/-- C6: every synthesized velocity command has `linear.x/y/z` equal to the
x/y/z PID controllers applied (with the nominal cycle period as `dt`) to
the corresponding positional error components, and `angular.x/y/z` equal to
the single scalar magnitude — the orientation PID applied to the angular
error — multiplied component-wise by the error-axis unit vector. -/
theorem twist_command_spec (s : PTState ℝ) :
    (calculateTwistCommand eigenAngleAxis s).1.linear.x =
      (s.pids.x.computeCommand
        (s.target_pose.pos.x - s.end_effector_transform.translation.x) s.period).1 ∧
    (calculateTwistCommand eigenAngleAxis s).1.linear.y =
      (s.pids.y.computeCommand
        (s.target_pose.pos.y - s.end_effector_transform.translation.y) s.period).1 ∧
    (calculateTwistCommand eigenAngleAxis s).1.linear.z =
      (s.pids.z.computeCommand
        (s.target_pose.pos.z - s.end_effector_transform.translation.z) s.period).1 ∧
    (calculateTwistCommand eigenAngleAxis s).1.angular.x =
      (s.pids.angular.computeCommand
          (eigenAngleAxis (s.target_pose.ori.mul s.end_effector_transform.rotation.inverse)).1
          s.period).1 *
        (eigenAngleAxis (s.target_pose.ori.mul s.end_effector_transform.rotation.inverse)).2.x ∧
    (calculateTwistCommand eigenAngleAxis s).1.angular.y =
      (s.pids.angular.computeCommand
          (eigenAngleAxis (s.target_pose.ori.mul s.end_effector_transform.rotation.inverse)).1
          s.period).1 *
        (eigenAngleAxis (s.target_pose.ori.mul s.end_effector_transform.rotation.inverse)).2.y ∧
    (calculateTwistCommand eigenAngleAxis s).1.angular.z =
      (s.pids.angular.computeCommand
          (eigenAngleAxis (s.target_pose.ori.mul s.end_effector_transform.rotation.inverse)).1
          s.period).1 *
        (eigenAngleAxis (s.target_pose.ori.mul s.end_effector_transform.rotation.inverse)).2.z :=
  ⟨rfl, rfl, rfl, rfl, rfl, rfl⟩

/-- C5: the angular error computed each cycle equals the Eigen rotation
angle of the relative quaternion `q_desired * inverse(q_current)`; for
every pair of unit quaternions that angle lies in `[0, π]`; and it is zero
whenever the current orientation equals the target orientation, regardless
of axis value. -/
theorem angular_error_spec :
    (∀ s : PTState ℝ,
      ((calculateTwistCommand eigenAngleAxis s).2).angular_error =
        (eigenAngleAxis (s.target_pose.ori.mul s.end_effector_transform.rotation.inverse)).1) ∧
    (∀ qd qc : Quat ℝ, qd.normSq = 1 → qc.normSq = 1 →
      (0 ≤ (eigenAngleAxis (qd.mul qc.inverse)).1 ∧
       (eigenAngleAxis (qd.mul qc.inverse)).1 ≤ Real.pi ∧
       (qd = qc → (eigenAngleAxis (qd.mul qc.inverse)).1 = 0))) := by
  constructor
  · intro s
    rfl
  · intro qd qc _ hc
    refine ⟨(eigenAngleAxis_angle_mem _).1, (eigenAngleAxis_angle_mem _).2, ?_⟩
    intro heq
    subst heq
    rw [Quat.mul_inverse_self qd hc]
    exact eigenAngleAxis_one

theorem angular_error_spec_witness :
    Quat.normSq (⟨1, 0, 0, 0⟩ : Quat ℝ) = 1 ∧
    (0 ≤ (eigenAngleAxis ((⟨1, 0, 0, 0⟩ : Quat ℝ).mul (⟨1, 0, 0, 0⟩ : Quat ℝ).inverse)).1 ∧
     (eigenAngleAxis ((⟨1, 0, 0, 0⟩ : Quat ℝ).mul (⟨1, 0, 0, 0⟩ : Quat ℝ).inverse)).1 ≤ Real.pi ∧
     ((⟨1, 0, 0, 0⟩ : Quat ℝ) = ⟨1, 0, 0, 0⟩ →
       (eigenAngleAxis ((⟨1, 0, 0, 0⟩ : Quat ℝ).mul (⟨1, 0, 0, 0⟩ : Quat ℝ).inverse)).1 = 0)) :=
  ⟨by simp [Quat.normSq],
   angular_error_spec.2 ⟨1, 0, 0, 0⟩ ⟨1, 0, 0, 0⟩ (by simp [Quat.normSq]) (by simp [Quat.normSq])⟩

/-- C2: in every iteration of the tracking loop the checks occur in this
order: first the tolerance check — if satisfied the loop terminates with
SUCCESS on that cycle without emitting a command for that cycle — then the
current-pose refresh, then the current-pose staleness check (terminating
NO_RECENT_END_EFFECTOR_POSE when the refreshed pose's age is at least the
pose timeout), then the cancellation check (terminating STOP_REQUESTED),
and only otherwise is a command synthesized and emitted. -/
theorem cycle_check_order (aa : Quat ℚ → ℚ × Vec3 ℚ) (env : ℕ → CycleInput ℚ)
    (i fuel : ℕ) (s : PTState ℚ) (acc : List (TwistStamped ℚ))
    (tolp : Vec3 ℚ) (tola : ℚ) :
    (satisfiesPoseTolerance (applyAsyncEvents (env i) s) tolp tola = true →
      cycleStep aa (env i) tolp tola s = .tolSatisfied (applyAsyncEvents (env i) s) ∧
      trackLoop aa env tolp tola i (fuel + 1) s acc =
        ⟨some .SUCCESS, doPostMotionReset (applyAsyncEvents (env i) s), acc⟩) ∧
    (satisfiesPoseTolerance (applyAsyncEvents (env i) s) tolp tola = false →
      haveRecentEndEffectorPose (refreshEE (env i).transform (applyAsyncEvents (env i) s))
          DEFAULT_POSE_TIMEOUT = false →
      trackLoop aa env tolp tola i (fuel + 1) s acc =
        ⟨some .NO_RECENT_END_EFFECTOR_POSE,
         doPostMotionReset (refreshEE (env i).transform (applyAsyncEvents (env i) s)), acc⟩) ∧
    (satisfiesPoseTolerance (applyAsyncEvents (env i) s) tolp tola = false →
      haveRecentEndEffectorPose (refreshEE (env i).transform (applyAsyncEvents (env i) s))
          DEFAULT_POSE_TIMEOUT = true →
      (refreshEE (env i).transform (applyAsyncEvents (env i) s)).stop_requested = true →
      trackLoop aa env tolp tola i (fuel + 1) s acc =
        ⟨some .STOP_REQUESTED,
         doPostMotionReset (refreshEE (env i).transform (applyAsyncEvents (env i) s)), acc⟩) ∧
    (satisfiesPoseTolerance (applyAsyncEvents (env i) s) tolp tola = false →
      haveRecentEndEffectorPose (refreshEE (env i).transform (applyAsyncEvents (env i) s))
          DEFAULT_POSE_TIMEOUT = true →
      (refreshEE (env i).transform (applyAsyncEvents (env i) s)).stop_requested = false →
      cycleStep aa (env i) tolp tola s =
        .emitted
          (calculateTwistCommand aa (refreshEE (env i).transform (applyAsyncEvents (env i) s))).1
          { (calculateTwistCommand aa
              (refreshEE (env i).transform (applyAsyncEvents (env i) s))).2 with
            now := (calculateTwistCommand aa
              (refreshEE (env i).transform (applyAsyncEvents (env i) s))).2.now
              + (env i).drift } ∧
      trackLoop aa env tolp tola i (fuel + 1) s acc =
        trackLoop aa env tolp tola (i + 1) fuel
          { (calculateTwistCommand aa
              (refreshEE (env i).transform (applyAsyncEvents (env i) s))).2 with
            now := (calculateTwistCommand aa
              (refreshEE (env i).transform (applyAsyncEvents (env i) s))).2.now
              + (env i).drift }
          (acc ++ [(calculateTwistCommand aa
            (refreshEE (env i).transform (applyAsyncEvents (env i) s))).1])) := by
  refine ⟨fun h1 => ⟨cycleStep_of_tol aa (env i) tolp tola s h1, ?_⟩,
          fun h1 h2 => ?_,
          fun h1 h2 h3 => ?_,
          fun h1 h2 h3 => ⟨cycleStep_of_emit aa (env i) tolp tola s h1 h2 h3, ?_⟩⟩
  · rw [trackLoop, cycleStep_of_tol aa (env i) tolp tola s h1]
  · rw [trackLoop, cycleStep_of_stale aa (env i) tolp tola s h1 h2]
  · rw [trackLoop, cycleStep_of_stop aa (env i) tolp tola s h1 h2 h3]
  · rw [trackLoop, cycleStep_of_emit aa (env i) tolp tola s h1 h2 h3]

attribute [local semireducible] Rat.add Rat.sub Rat.mul Rat.inv in
theorem cycle_check_order_witness :
    cycleStep aaQ (envCnil 0) ⟨1, 1, 1⟩ 1 s0 = .tolSatisfied (applyAsyncEvents (envCnil 0) s0) ∧
    trackLoop aaQ envCnil ⟨1, 1, 1⟩ 1 0 (0 + 1) s0 [] =
      ⟨some .SUCCESS, doPostMotionReset (applyAsyncEvents (envCnil 0) s0), []⟩ :=
  (cycle_check_order aaQ envCnil 0 0 s0 [] ⟨1, 1, 1⟩ 1).1 (by decide)

/-- C9 (evaluated against the claim): the tracking-loop body contains no
sleep call at all — every cycle, in particular every command-emitting
cycle, leaves the sleep accumulator unchanged, so consecutive command
emissions are not separated by a nominal-period suspension. -/
theorem cycleStep_never_sleeps (aa : Quat ℚ → ℚ × Vec3 ℚ) (c : CycleInput ℚ)
    (tolp : Vec3 ℚ) (tola : ℚ) (s : PTState ℚ) :
    (cycleStep aa c tolp tola s).stateAfter.total_sleep = s.total_sleep := by
  rcases cycleStep_cases aa c tolp tola s with hc | hc | hc | hc <;> rw [hc] <;>
    simp [CycleResult.stateAfter, doPostMotionReset_total_sleep, refreshEE_total_sleep,
      applyAsyncEvents_total_sleep, calculateTwistCommand_total_sleep]

/-- C10: on the first cycle of a tracking invocation the tolerance check
reads the cached angular error from before any command was synthesized —
the startup phase never writes it, so it still holds the entry value, which
is zero after construction or a post-motion reset — and therefore, for
every positive angular tolerance, first-cycle success depends only on the
three positional errors. -/
theorem first_cycle_angular_tolerance_trivial (envP : ℕ → PollInput ℚ)
    (c : CycleInput ℚ) (start_time : ℚ) (pollFuel i : ℕ) (s s1 : PTState ℚ)
    (tolp : Vec3 ℚ) (tola : ℚ)
    (hang : s.angular_error = 0) (htola : 0 < tola)
    (hpoll : pollLoop envP start_time i pollFuel s = some s1) :
    (applyAsyncEvents c s1).angular_error = 0 ∧
    (satisfiesPoseTolerance (applyAsyncEvents c s1) tolp tola = true ↔
      (|(applyAsyncEvents c s1).target_pose.pos.x -
          (applyAsyncEvents c s1).end_effector_transform.translation.x| < tolp.x ∧
       |(applyAsyncEvents c s1).target_pose.pos.y -
          (applyAsyncEvents c s1).end_effector_transform.translation.y| < tolp.y ∧
       |(applyAsyncEvents c s1).target_pose.pos.z -
          (applyAsyncEvents c s1).end_effector_transform.translation.z| < tolp.z)) := by
  have h0 : (applyAsyncEvents c s1).angular_error = 0 := by
    rw [applyAsyncEvents_angular_error,
      pollLoop_angular_error envP start_time pollFuel i s s1 hpoll, hang]
  refine ⟨h0, ?_⟩
  simp [satisfiesPoseTolerance, h0, abs_zero, htola, and_assoc]

attribute [local semireducible] Rat.add Rat.sub Rat.mul Rat.inv in
theorem first_cycle_angular_tolerance_trivial_witness :
    (applyAsyncEvents (envCnil 0) s0).angular_error = 0 ∧
    (satisfiesPoseTolerance (applyAsyncEvents (envCnil 0) s0) ⟨1, 1, 1⟩ 1 = true ↔
      (|(applyAsyncEvents (envCnil 0) s0).target_pose.pos.x -
          (applyAsyncEvents (envCnil 0) s0).end_effector_transform.translation.x| < 1 ∧
       |(applyAsyncEvents (envCnil 0) s0).target_pose.pos.y -
          (applyAsyncEvents (envCnil 0) s0).end_effector_transform.translation.y| < 1 ∧
       |(applyAsyncEvents (envCnil 0) s0).target_pose.pos.z -
          (applyAsyncEvents (envCnil 0) s0).end_effector_transform.translation.z| < 1)) :=
  first_cycle_angular_tolerance_trivial envPfresh (envCnil 0) 0 1 0 s0 s0 ⟨1, 1, 1⟩ 1
    (by decide) (by decide) (by decide)

attribute [local semireducible] Rat.add Rat.sub Rat.mul Rat.inv in
/-- C1 (counterexample): an invocation that terminates with
NO_RECENT_TARGET_POSE returns without performing the post-motion reset.
The run below enters with a dirty controller state (cached angular error 5,
x-axis integral accumulator 7), sees no target update, and returns
NO_RECENT_TARGET_POSE with the dirty state intact — refuting the claim
that every terminal outcome performs the reset before returning. -/
theorem moveToPose_no_recent_target_skips_reset_cex :
    (moveToPose aaQ envPnone envCnil 2 0 s0dirty ⟨1, 1, 1⟩ 1).status =
      some .NO_RECENT_TARGET_POSE ∧
    ¬ postMotionResetDone (moveToPose aaQ envPnone envCnil 2 0 s0dirty ⟨1, 1, 1⟩ 1).state ∧
    (moveToPose aaQ envPnone envCnil 2 0 s0dirty ⟨1, 1, 1⟩ 1).state.angular_error = 5 ∧
    (moveToPose aaQ envPnone envCnil 2 0 s0dirty ⟨1, 1, 1⟩ 1).state.pids.x.i_error = 7 := by
  refine ⟨by decide, ?_, by decide, by decide⟩
  intro h
  exact absurd h.2.2.2.2 (by decide)

/-- C1 (amended): for the terminal outcomes SUCCESS,
NO_RECENT_END_EFFECTOR_POSE and STOP_REQUESTED, the post-motion reset —
resetting all four PID states and zeroing the cached angular error — is
performed before the status code is returned; only the
NO_RECENT_TARGET_POSE return skips it. -/
theorem moveToPose_reset_before_return (aa : Quat ℚ → ℚ × Vec3 ℚ)
    (envP : ℕ → PollInput ℚ) (envC : ℕ → CycleInput ℚ) (pollFuel cycleFuel : ℕ)
    (s : PTState ℚ) (tolp : Vec3 ℚ) (tola : ℚ) (st : PoseTrackingStatusCode)
    (hst : (moveToPose aa envP envC pollFuel cycleFuel s tolp tola).status = some st)
    (hne : st ≠ .NO_RECENT_TARGET_POSE) :
    postMotionResetDone (moveToPose aa envP envC pollFuel cycleFuel s tolp tola).state := by
  rcases moveToPose_inv aa envP envC pollFuel cycleFuel s tolp tola with
    ⟨_, hrun⟩ | ⟨s1, _, ⟨_, hrun⟩ | ⟨_, hrun⟩⟩
  · rw [hrun] at hst
    cases hst
  · rw [hrun] at hst
    cases hst
    exact absurd rfl hne
  · rw [hrun] at hst ⊢
    exact trackLoop_status_reset aa envC tolp tola cycleFuel 0 s1 [] st hst

attribute [local semireducible] Rat.add Rat.sub Rat.mul Rat.inv in
theorem moveToPose_reset_before_return_witness :
    postMotionResetDone (moveToPose aaQ envPfresh envCnil 3 2 s0dirty ⟨1, 1, 1⟩ 6).state :=
  moveToPose_reset_before_return aaQ envPfresh envCnil 3 2 s0dirty ⟨1, 1, 1⟩ 6 .SUCCESS
    (by decide) (by decide)

/-- C3: if the tracking operation is entered while the cached target pose
is stale (its stamp is rolled back to `now - 2 * DEFAULT_POSE_TIMEOUT` at
entry) and no fresh target pose arrives during the bounded startup polling
window, the operation returns NO_RECENT_TARGET_POSE and no velocity command
is ever emitted during that invocation. (The fuel bound `100 ≤ pollFuel`
only ensures the model's fuel outlasts the real loop's bounded window.) -/
theorem stale_target_aborts_without_commands (aa : Quat ℚ → ℚ × Vec3 ℚ)
    (envP : ℕ → PollInput ℚ) (envC : ℕ → CycleInput ℚ) (pollFuel cycleFuel : ℕ)
    (s : PTState ℚ) (tolp : Vec3 ℚ) (tola : ℚ)
    (hu : ∀ j, (envP j).target_update = none)
    (hd : ∀ j, 0 ≤ (envP j).drift)
    (hf : 100 ≤ pollFuel) :
    (moveToPose aa envP envC pollFuel cycleFuel s tolp tola).status =
      some .NO_RECENT_TARGET_POSE ∧
    (moveToPose aa envP envC pollFuel cycleFuel s tolp tola).commands = [] := by
  have hbound : DEFAULT_POSE_TIMEOUT - ((rollbackTarget s).now - (rollbackTarget s).now) ≤
      (pollFuel : ℚ) / 1000 := by
    have h100 : (100 : ℚ) ≤ (pollFuel : ℚ) := by exact_mod_cast hf
    rw [sub_self, sub_zero, DEFAULT_POSE_TIMEOUT]
    linarith
  have hsome := pollLoop_some_of_fuel envP (rollbackTarget s).now hd pollFuel 0
    (rollbackTarget s) hbound
  obtain ⟨s1, heq⟩ := Option.isSome_iff_exists.mp hsome
  obtain ⟨htp, hnow⟩ := pollLoop_no_target_update envP (rollbackTarget s).now hu hd
    pollFuel 0 (rollbackTarget s) s1 heq
  have hstale : haveRecentTargetPose s1 DEFAULT_POSE_TIMEOUT = false := by
    rw [haveRecentTargetPose, htp, rollbackTarget_stamp, decide_eq_false_iff_not, not_lt]
    rw [rollbackTarget_now] at hnow
    rw [DEFAULT_POSE_TIMEOUT]
    linarith [hnow]
  rcases moveToPose_inv aa envP envC pollFuel cycleFuel s tolp tola with
    ⟨hnone, _⟩ | ⟨s2, heq2, ⟨_, hrun⟩ | ⟨hfresh, _⟩⟩
  · rw [hnone] at heq
    cases heq
  · rw [heq] at heq2
    cases heq2
    rw [hrun]
    exact ⟨rfl, rfl⟩
  · rw [heq] at heq2
    cases heq2
    rw [hstale] at hfresh
    cases hfresh

attribute [local semireducible] Rat.add Rat.sub Rat.mul Rat.inv in
theorem stale_target_aborts_without_commands_witness :
    (moveToPose aaQ envPnone envCnil 100 0 s0 ⟨1, 1, 1⟩ 1).status =
      some .NO_RECENT_TARGET_POSE ∧
    (moveToPose aaQ envPnone envCnil 100 0 s0 ⟨1, 1, 1⟩ 1).commands = [] :=
  stale_target_aborts_without_commands aaQ envPnone envCnil 100 0 s0 ⟨1, 1, 1⟩ 1
    (fun _ => rfl) (fun _ => by show (0 : ℚ) ≤ 1; decide) (by decide)

/-- C7 (counterexample): when the transform lookup fails while
re-expressing an incoming target pose into the tracking frame, the callback
does not skip silently — the `lookupTransform` exception propagates out of
the callback (first component `true`), since no handler exists in it. -/
theorem targetPoseCallback_lookup_failure_throws_cex :
    (targetPoseCallback (none : Option (TransformK ℚ)) ⟨0, "tool", v0Q, qidQ⟩ s0).1 = true := by
  decide

/-- C7 (amended): when a transform lookup fails while re-expressing an
incoming target pose, the update is not applied — the whole state, in
particular the cached target pose and its freshness stamp, is unchanged —
but the failure is not a silent skip: the lookup exception propagates out
of the callback uncaught. -/
theorem targetPoseCallback_lookup_failure (m : PoseMsg ℚ) (s : PTState ℚ)
    (h : m.frame_id ≠ s.planning_frame) :
    targetPoseCallback none m s = (true, s) := by
  simp [targetPoseCallback, h]

theorem targetPoseCallback_lookup_failure_witness :
    targetPoseCallback none (⟨0, "tool", v0Q, qidQ⟩ : PoseMsg ℚ) s0 = (true, s0) :=
  targetPoseCallback_lookup_failure ⟨0, "tool", v0Q, qidQ⟩ s0 (by decide)

end PoseTrackingSpec
